import Mathlib

/-!
Shallow embedding of the time-tracker bot (`src/telegram_bot.py`).

Timestamps are modelled as a calendar-day index plus an integer number of
microseconds since midnight (exactly the resolution of a Python datetime);
`total_seconds()` and the per-minute arithmetic live in the rationals.  Python `dict`s keyed by user id are
modelled as functions `Int -> Option _`; the shared `owners` JSON payload is
modelled as a `List OwnerGroup`.  Database faults (connection error,
malformed JSON) are injected through an explicit `DbFault` oracle so that the
`try/except` structure of the synchronizer can be stated and proved.
-/

namespace Checher

/-- A timezone-aware datetime: calendar day index and microseconds since
midnight (Python datetimes have exactly microsecond resolution). -/
structure DateTime where
  day : ℤ
  tod : ℤ
  deriving DecidableEq, Repr

/-- Absolute instant in microseconds, for datetime comparison and
subtraction. -/
def DateTime.abs (t : DateTime) : ℤ := t.day * 86400000000 + t.tod

/-- `(a - b).total_seconds()` for two datetimes, in seconds. -/
def dtSub (a b : DateTime) : ℚ := ((a.abs - b.abs : ℤ) : ℚ) / 1000000

/-- Python datetime `<` (aware datetimes compare by instant). -/
def dtLt (a b : DateTime) : Prop := a.abs < b.abs

/-- Python datetime `<=`. -/
def dtLe (a b : DateTime) : Prop := a.abs ≤ b.abs

instance (a b : DateTime) : Decidable (dtLt a b) :=
  inferInstanceAs (Decidable (a.abs < b.abs))

instance (a b : DateTime) : Decidable (dtLe a b) :=
  inferInstanceAs (Decidable (a.abs ≤ b.abs))

/-- `t.replace(hour=h, minute=m, second=0, microsecond=0)`. -/
def DateTime.replaceHM (t : DateTime) (h m : ℤ) : DateTime :=
  ⟨t.day, h * 3600000000 + m * 60000000⟩

/-- `t.hour` attribute of a datetime (whole hours of its time of day). -/
def DateTime.hour (t : DateTime) : ℤ := t.tod / 3600000000

/-- `datetime.time(h, m, s)` as microseconds since midnight; `now.time()`
comparisons compare these values against `tod`. -/
def hms (h m s : ℤ) : ℤ := h * 3600000000 + m * 60000000 + s * 1000000

/-- Python `int(x)`: truncation toward zero. -/
def pyInt (q : ℚ) : ℤ := if 0 ≤ q then ⌊q⌋ else -⌊-q⌋

/-- Break kinds stored in `user_breaks[...]["type"]`. -/
inductive BreakType where
  | wc
  | smoke
  | eat
  deriving DecidableEq, Repr

/-- One entry of `user_breaks`. -/
structure BreakInfo where
  type : BreakType
  start_time : DateTime
  deriving DecidableEq, Repr

/-- One entry of `user_data`. -/
structure UserRec where
  name : String
  check_in : Option DateTime
  check_out : Option DateTime
  wc_count : ℤ
  wc_late : ℤ
  smoke_count : ℤ
  smoke_late : ℤ
  eat_count : ℤ
  eat_late : ℤ
  deriving DecidableEq, Repr

/-- The fresh record `_ensure_user_data` installs. -/
def initUser (full_name : String) : UserRec :=
  { name := full_name, check_in := none, check_out := none,
    wc_count := 0, wc_late := 0, smoke_count := 0, smoke_late := 0,
    eat_count := 0, eat_late := 0 }

/-- One entry of the `owners` JSON payload in `kv_storage`. -/
structure OwnerGroup where
  owner : String
  disabled : Bool
  disabled_until : Option String
  deriving DecidableEq, Repr

/-- The `kv_storage` row keyed `'owners'`: `none` models a missing/falsy
`SELECT data` result. -/
structure KvState where
  owners : Option (List OwnerGroup)
  deriving DecidableEq, Repr

/-- Fault injected into a database round trip: `conn` models a pool or
transaction exception, `malformed` a `json.loads` exception on the stored
payload. -/
inductive DbFault where
  | ok
  | conn
  | malformed
  deriving DecidableEq, Repr

/-- Exceptions a synchronizer body can raise. -/
inductive PyExc where
  | connError
  | jsonError
  deriving DecidableEq, Repr

/-- Python `str.strip()`: drop whitespace from both ends. -/
def pyStrip (s : String) : String :=
  ⟨((s.data.dropWhile Char.isWhitespace).reverse.dropWhile
      Char.isWhitespace).reverse⟩

/-- Python `s.startswith("@")`. -/
def pyStartsAt (s : String) : Bool :=
  match s.data with
  | [] => false
  | c :: _ => c = '@'

/-- Python `s[1:]`. -/
def pyDropOne (s : String) : String := ⟨s.data.drop 1⟩

/-- Python `str.lower()`. -/
def pyLower (s : String) : String := ⟨s.data.map Char.toLower⟩

/-- `_norm_owner_name`: strip whitespace, drop one leading `@`, lowercase. -/
def _norm_owner_name (s : String) : String :=
  let s := pyStrip s
  let s := if pyStartsAt s then pyDropOne s else s
  pyLower s

/-- The matching loop of `_set_owner_status_in_db`: finds the first entry
whose normalized `owner` equals `normalized`, sets `disabled`, pops
`disabled_until` on re-open, and stops; returns the updated list and the
`found_owner` flag. -/
def setOwnerLoop (normalized : String) (is_stopped : Bool) :
    List OwnerGroup → List OwnerGroup × Bool
  | [] => ([], false)
  | g :: rest =>
    if _norm_owner_name g.owner = normalized then
      ({ g with disabled := is_stopped,
                disabled_until := if is_stopped then g.disabled_until else none }
        :: rest, true)
    else
      let r := setOwnerLoop normalized is_stopped rest
      (g :: r.1, r.2)

/-- The `try:` body of `_set_owner_status_in_db` after normalization:
fetches the `owners` row, parses, runs the loop, writes back and notifies
when an owner was found.  Result: new kv state and whether
`NOTIFY owners_changed` ran.  Exceptions are surfaced in `Except`. -/
def setOwnerBody (normalized : String) (is_stopped : Bool) (fault : DbFault)
    (kv : KvState) : Except PyExc (KvState × Bool) :=
  if fault = DbFault.conn then Except.error PyExc.connError
  else
    match kv.owners with
    | none => Except.ok (kv, false)
    | some data =>
      if fault = DbFault.malformed then Except.error PyExc.jsonError
      else
        let r := setOwnerLoop normalized is_stopped data
        if r.2 then Except.ok (⟨some r.1⟩, true)
        else Except.ok (kv, false)

/-- `_set_owner_status_in_db(owner_name, is_stopped)`: empty-name guards,
then the transactional body with every exception caught and logged (the
caught path leaves the store untouched and sends no notification). -/
def _set_owner_status_in_db (owner_name : String) (is_stopped : Bool)
    (fault : DbFault) (kv : KvState) : KvState × Bool :=
  if owner_name = "" then (kv, false)
  else
    let normalized := _norm_owner_name owner_name
    if normalized = "" then (kv, false)
    else
      match setOwnerBody normalized is_stopped fault kv with
      | Except.error _ => (kv, false)
      | Except.ok r => r

/-- The update pass of `_stop_all_owners_in_db`: set `disabled = true` on
every entry whose `disabled` is not already truthy. -/
def stopAllPass (data : List OwnerGroup) : List OwnerGroup :=
  data.map fun g => if g.disabled then g else { g with disabled := true }

/-- The `changes_made` flag of `_stop_all_owners_in_db`. -/
def stopAllChanged (data : List OwnerGroup) : Bool :=
  data.any fun g => !g.disabled

/-- The `try:` body of `_stop_all_owners_in_db`. -/
def stopAllBody (fault : DbFault) (kv : KvState) :
    Except PyExc (KvState × Bool) :=
  if fault = DbFault.conn then Except.error PyExc.connError
  else
    match kv.owners with
    | none => Except.ok (kv, false)
    | some data =>
      if fault = DbFault.malformed then Except.error PyExc.jsonError
      else if stopAllChanged data then Except.ok (⟨some (stopAllPass data)⟩, true)
      else Except.ok (kv, false)

/-- `_stop_all_owners_in_db()` with the catch-all except wrapped around the
body. -/
def _stop_all_owners_in_db (fault : DbFault) (kv : KvState) :
    KvState × Bool :=
  match stopAllBody fault kv with
  | Except.error _ => (kv, false)
  | Except.ok r => r

/-- Telegram user as seen by the handlers. -/
structure TgUser where
  id : ℤ
  username : Option String
  full_name : String

/-- Python truthiness of `user.username`. -/
def truthyName : Option String → Bool
  | none => false
  | some s => decide (s ≠ "")

/-- In-memory bot state: `user_data`, `user_breaks`, and the shared
`kv_storage` row. -/
structure BotState where
  user_data : ℤ → Option UserRec
  user_breaks : ℤ → Option BreakInfo
  kv : KvState

/-- Point update of a `user_data`-style map. -/
def updU (m : ℤ → Option UserRec) (i : ℤ) (v : Option UserRec) :
    ℤ → Option UserRec :=
  fun j => if j = i then v else m j

/-- Point update of a `user_breaks`-style map. -/
def updB (m : ℤ → Option BreakInfo) (i : ℤ) (v : Option BreakInfo) :
    ℤ → Option BreakInfo :=
  fun j => if j = i then v else m j

/-- `_ensure_user_data(user)`. -/
def _ensure_user_data (u : TgUser) (m : ℤ → Option UserRec) :
    ℤ → Option UserRec :=
  match m u.id with
  | some _ => m
  | none => updU m u.id (some (initUser u.full_name))

/-- Result of one handler call: next state, optional reply text, and the
trace of `_set_owner_status_in_db` invocations `(handle, is_stopped)`. -/
structure HandlerOut where
  state : BotState
  reply : Option String
  ownerCalls : List (String × Bool)

/-- `check_in` handler: ensure the record, stamp `check_in`, try to open the
owner when the username is truthy, then classify the time of day. -/
def check_in (now : DateTime) (fault : DbFault) (u : TgUser)
    (st : BotState) : HandlerOut :=
  let ud0 := _ensure_user_data u st.user_data
  let ud1 :=
    match ud0 u.id with
    | some r => updU ud0 u.id (some { r with check_in := some now })
    | none => ud0
  let sync :=
    match u.username with
    | some h => if h = "" then (st.kv, ([] : List (String × Bool)))
                else ((_set_owner_status_in_db h false fault st.kv).1, [(h, false)])
    | none => (st.kv, [])
  let t := now.tod
  let reply :=
    if hms 13 0 0 ≤ t ∧ t < hms 15 0 0 then some "Well done!"
    else if hms 15 5 0 < t ∧ t < hms 21 0 0 then
      let late_minutes := pyInt (dtSub now (now.replaceHM 15 0) / 60)
      some ("You are late " ++ toString late_minutes ++ " minutes.")
    else if hms 21 1 0 < t ∧ t < hms 21 59 0 then
      let late_minutes := pyInt (dtSub now (now.replaceHM 21 0) / 60)
      some ("You are late " ++ toString late_minutes ++ " minutes (from 9 PM).")
    else none
  ⟨⟨ud1, st.user_breaks, sync.1⟩, reply, sync.2⟩

/-- `check_out` handler: time-of-day allow-list gate, then record the
check-out only for a known id and try to stop the owner. -/
def check_out (now : DateTime) (fault : DbFault) (u : TgUser)
    (st : BotState) : HandlerOut :=
  let t := now.tod
  let is_valid_time :=
    (hms 21 0 0 ≤ t ∧ t ≤ hms 23 59 59) ∨ (hms 3 0 0 ≤ t ∧ t ≤ hms 6 0 0)
  if is_valid_time then
    let ud :=
      match st.user_data u.id with
      | some r => updU st.user_data u.id (some { r with check_out := some now })
      | none => st.user_data
    let sync :=
      match u.username with
      | some h => if h = "" then (st.kv, ([] : List (String × Bool)))
                  else ((_set_owner_status_in_db h true fault st.kv).1, [(h, true)])
      | none => (st.kv, [])
    ⟨⟨ud, st.user_breaks, sync.1⟩, none, sync.2⟩
  else
    ⟨st, some "You are not allowed to check out at this time.", []⟩

/-- `wc` handler. -/
def wc (now : DateTime) (u : TgUser) (st : BotState) : HandlerOut :=
  let ud := _ensure_user_data u st.user_data
  match st.user_breaks u.id with
  | none =>
    ⟨⟨ud, updB st.user_breaks u.id (some ⟨BreakType.wc, now⟩), st.kv⟩, none, []⟩
  | some _ =>
    ⟨⟨ud, st.user_breaks, st.kv⟩, some "You are already on another break.", []⟩

/-- `smoke` handler. -/
def smoke (now : DateTime) (u : TgUser) (st : BotState) : HandlerOut :=
  let ud := _ensure_user_data u st.user_data
  match st.user_breaks u.id with
  | none =>
    ⟨⟨ud, updB st.user_breaks u.id (some ⟨BreakType.smoke, now⟩), st.kv⟩, none, []⟩
  | some _ =>
    ⟨⟨ud, st.user_breaks, st.kv⟩, some "You are already on another break.", []⟩

/-- The eating-window test of the `eat` handler:
`eat_time1_start <= now <= eat_time1_end or eat_time2_start <= now <=
eat_time2_end` with the four `now.replace(...)` boundaries. -/
def eatWindowOK (now : DateTime) : Prop :=
  (dtLe (now.replaceHM 17 0) now ∧ dtLe now (now.replaceHM 17 30)) ∨
  (dtLe (now.replaceHM 0 30) now ∧ dtLe now (now.replaceHM 1 0))

instance (now : DateTime) : Decidable (eatWindowOK now) :=
  inferInstanceAs (Decidable (_ ∨ _))

/-- `eat` handler: the eating-window gate runs first; only inside a window
is the break-exclusivity check reached. -/
def eat (now : DateTime) (u : TgUser) (st : BotState) : HandlerOut :=
  if eatWindowOK now then
    let ud := _ensure_user_data u st.user_data
    match st.user_breaks u.id with
    | none =>
      ⟨⟨ud, updB st.user_breaks u.id (some ⟨BreakType.eat, now⟩), st.kv⟩, none, []⟩
    | some _ =>
      ⟨⟨ud, st.user_breaks, st.kv⟩, some "You are already on another break.", []⟩
  else
    ⟨st, some "It's not time to eat yet.", []⟩

/-- `back_from_break` handler: pops the active session, bumps the matching
counter, computes lateness per break kind, and replies only when late. -/
def back_from_break (now : DateTime) (u : TgUser) (st : BotState) :
    HandlerOut :=
  match st.user_breaks u.id with
  | none => ⟨st, none, []⟩
  | some bi =>
    let breaks2 := updB st.user_breaks u.id none
    let ud := _ensure_user_data u st.user_data
    let r := (ud u.id).getD (initUser u.full_name)
    let step : UserRec × ℤ :=
      match bi.type with
      | BreakType.wc =>
        let r1 := { r with wc_count := r.wc_count + 1 }
        let duration_minutes := dtSub now bi.start_time / 60
        if duration_minutes > 15 then
          let lm := pyInt (duration_minutes - 15)
          ({ r1 with wc_late := r1.wc_late + lm }, lm)
        else (r1, 0)
      | BreakType.smoke =>
        let r1 := { r with smoke_count := r.smoke_count + 1 }
        let duration_minutes := dtSub now bi.start_time / 60
        if duration_minutes > 10 then
          let lm := pyInt (duration_minutes - 10)
          ({ r1 with smoke_late := r1.smoke_late + lm }, lm)
        else (r1, 0)
      | BreakType.eat =>
        let r1 := { r with eat_count := r.eat_count + 1 }
        let deadline :=
          if bi.start_time.hour = 17 then some (bi.start_time.replaceHM 17 30)
          else if bi.start_time.hour = 1 then some (bi.start_time.replaceHM 0 30)
          else none
        match deadline with
        | some d =>
          if dtLt d now then
            let lm := pyInt (dtSub now d / 60)
            if lm > 0 then ({ r1 with eat_late := r1.eat_late + lm }, lm)
            else (r1, lm)
          else (r1, 0)
        | none => (r1, 0)
    ⟨⟨updU ud u.id (some step.1), breaks2, st.kv⟩,
     if step.2 > 0 then
       some ("You are late " ++ toString step.2 ++ " minutes.")
     else none, []⟩

/-! ## Helper lemmas -/

lemma pyInt_of_nonneg (q : ℚ) (h : 0 ≤ q) : pyInt q = ⌊q⌋ := by
  simp [pyInt, h]

/-- The grace-ceiling computation of `back_from_break` equals
`max 0 (⌊q⌋ - c)` for an integer ceiling `c`. -/
lemma grace_late_eq (q : ℚ) (c : ℤ) :
    (if q > (c : ℚ) then pyInt (q - (c : ℚ)) else 0) = max 0 (⌊q⌋ - c) := by
  by_cases h : q > (c : ℚ)
  · rw [if_pos h, pyInt_of_nonneg _ (by linarith)]
    rw [Int.floor_sub_int]
    have hc : c ≤ ⌊q⌋ := Int.le_floor.mpr (le_of_lt h)
    omega
  · rw [if_neg h]
    have hq : ⌊q⌋ ≤ c := by
      have := Int.floor_le_floor (α := ℚ) (le_of_not_lt h)
      simpa using this
    omega

lemma grace15 (q : ℚ) :
    (if q > 15 then pyInt (q - 15) else 0) = max 0 (⌊q⌋ - 15) := by
  have h := grace_late_eq q 15
  push_cast at h
  exact h

lemma grace10 (q : ℚ) :
    (if q > 10 then pyInt (q - 10) else 0) = max 0 (⌊q⌋ - 10) := by
  have h := grace_late_eq q 10
  push_cast at h
  exact h

/-- C1: for a completed `wc` break the late minutes added to `wc_late`
equal `max 0 (d - 15)`, and for a completed `smoke` break the late minutes
added to `smoke_late` equal `max 0 (d - 10)`, where
`d = ⌊(end - start).total_seconds() / 60⌋`; in both cases a late reply is
emitted iff the recorded late minutes are positive. -/
theorem c1_break_grace_lateness
    (st : BotState) (u : TgUser) (now s : DateTime) (r : UserRec)
    (hr : st.user_data u.id = some r) :
    (st.user_breaks u.id = some ⟨BreakType.wc, s⟩ →
      (back_from_break now u st).state.user_data u.id =
        some { r with wc_count := r.wc_count + 1,
                      wc_late := r.wc_late + max 0 (⌊dtSub now s / 60⌋ - 15) } ∧
      ((back_from_break now u st).reply.isSome ↔
        0 < max 0 (⌊dtSub now s / 60⌋ - 15))) ∧
    (st.user_breaks u.id = some ⟨BreakType.smoke, s⟩ →
      (back_from_break now u st).state.user_data u.id =
        some { r with smoke_count := r.smoke_count + 1,
                      smoke_late := r.smoke_late + max 0 (⌊dtSub now s / 60⌋ - 10) } ∧
      ((back_from_break now u st).reply.isSome ↔
        0 < max 0 (⌊dtSub now s / 60⌋ - 10))) := by
  constructor
  · intro hb
    have hk := grace15 (dtSub now s / 60)
    by_cases hd : dtSub now s / 60 > (15 : ℚ)
    · rw [if_pos hd] at hk
      simp only [back_from_break, hb, _ensure_user_data, hr, updU,
        Option.getD_some, if_pos hd]
      rw [hk]
      simp
    · rw [if_neg hd] at hk
      simp only [back_from_break, hb, _ensure_user_data, hr, updU,
        Option.getD_some, if_neg hd]
      rw [← hk]
      simp
  · intro hb
    have hk := grace10 (dtSub now s / 60)
    by_cases hd : dtSub now s / 60 > (10 : ℚ)
    · rw [if_pos hd] at hk
      simp only [back_from_break, hb, _ensure_user_data, hr, updU,
        Option.getD_some, if_pos hd]
      rw [hk]
      simp
    · rw [if_neg hd] at hk
      simp only [back_from_break, hb, _ensure_user_data, hr, updU,
        Option.getD_some, if_neg hd]
      rw [← hk]
      simp

/-! ## Sample data for witnesses and counterexamples -/

def uA : TgUser := ⟨1, some "alice", "W"⟩

/-- A state with one record for id 1 and an active `wc` break started at
10:00:00. -/
def stWC : BotState :=
  ⟨fun i => if i = 1 then some (initUser "W") else none,
   fun i => if i = 1 then some ⟨BreakType.wc, ⟨0, 36000000000⟩⟩ else none,
   ⟨none⟩⟩

/-- Witness for C1: `wc` break 10:00:00 → 10:16:00 records 1 late minute
and emits a reply. -/
theorem c1_break_grace_lateness_witness :
    stWC.user_data 1 = some (initUser "W") ∧
    stWC.user_breaks 1 = some ⟨BreakType.wc, ⟨0, 36000000000⟩⟩ ∧
    (back_from_break ⟨0, 36960000000⟩ uA stWC).state.user_data 1 =
      some { initUser "W" with wc_count := 1, wc_late := 1 } ∧
    (back_from_break ⟨0, 36960000000⟩ uA stWC).reply.isSome := by
  have hmax : max 0 (⌊dtSub (⟨0, 36960000000⟩ : DateTime) (⟨0, 36000000000⟩ : DateTime)
      / 60⌋ - 15) = (1 : ℤ) := by
    have hf : ⌊dtSub (⟨0, 36960000000⟩ : DateTime) (⟨0, 36000000000⟩ : DateTime) / 60⌋ =
        (16 : ℤ) := by
      norm_num [dtSub, DateTime.abs]
    rw [hf]
    omega
  have h := (c1_break_grace_lateness stWC uA ⟨0, 36960000000⟩ ⟨0, 36000000000⟩
    (initUser "W") (by decide)).1 (by decide)
  rw [hmax] at h
  exact ⟨by decide, by decide, h.1.trans (by decide), h.2.mpr (by decide)⟩

/-- C2 counterexample: with an active `wc` session, an `eat` request at
12:00:00 (outside both eating windows) is rejected with the eating-window
reply, not the already-on-break reply. -/
theorem c2_break_exclusivity_counterexample :
    stWC.user_breaks 1 = some ⟨BreakType.wc, ⟨0, 36000000000⟩⟩ ∧
    (eat ⟨0, 43200000000⟩ uA stWC).reply = some "It's not time to eat yet." ∧
    (eat ⟨0, 43200000000⟩ uA stWC).reply ≠
      some "You are already on another break." := by
  decide

/-- C2 amended: with an active session, `wc` and `smoke` requests, and
`eat` requests inside an eating window, are rejected with the fixed
already-on-break reply; an `eat` request outside every eating window is
rejected with the eating-window reply instead.  In every case the stored
break session map is left untouched. -/
theorem c2_break_exclusivity
    (st : BotState) (u : TgUser) (now : DateTime) (bi : BreakInfo)
    (hb : st.user_breaks u.id = some bi) :
    ((wc now u st).reply = some "You are already on another break." ∧
     (wc now u st).state.user_breaks = st.user_breaks) ∧
    ((smoke now u st).reply = some "You are already on another break." ∧
     (smoke now u st).state.user_breaks = st.user_breaks) ∧
    (eatWindowOK now →
      (eat now u st).reply = some "You are already on another break." ∧
      (eat now u st).state.user_breaks = st.user_breaks) ∧
    (¬ eatWindowOK now →
      (eat now u st).reply = some "It's not time to eat yet." ∧
      (eat now u st).state.user_breaks = st.user_breaks) := by
  refine ⟨?_, ?_, ?_, ?_⟩
  · simp [wc, hb]
  · simp [smoke, hb]
  · intro hw
    simp [eat, if_pos hw, hb]
  · intro hw
    simp [eat, if_neg hw]

/-- Witness for C2 (amended): in `stWC` the id 1 holds a `wc` session; a
second `wc` request and an in-window `eat` request are both rejected with
the already-on-break reply and the session survives. -/
theorem c2_break_exclusivity_witness :
    stWC.user_breaks 1 = some ⟨BreakType.wc, ⟨0, 36000000000⟩⟩ ∧
    (wc ⟨0, 61500000000⟩ uA stWC).reply = some "You are already on another break." ∧
    (wc ⟨0, 61500000000⟩ uA stWC).state.user_breaks 1 =
      some ⟨BreakType.wc, ⟨0, 36000000000⟩⟩ ∧
    (eat ⟨0, 61500000000⟩ uA stWC).reply =
      some "You are already on another break." := by
  have h := c2_break_exclusivity stWC uA ⟨0, 61500000000⟩
    ⟨BreakType.wc, ⟨0, 36000000000⟩⟩ (by decide)
  exact ⟨by decide, h.1.1, (congrFun h.1.2 1).trans (by decide),
    (h.2.2.1 (by decide)).1⟩

/-- A state with one record for id 1 and an active `eat` break started at
00:45:00, i.e. inside the configured 00:30–01:00 eating window. -/
def stEat : BotState :=
  ⟨fun i => if i = 1 then some (initUser "W") else none,
   fun i => if i = 1 then some ⟨BreakType.eat, ⟨0, 2700000000⟩⟩ else none,
   ⟨none⟩⟩

/-- An empty state: no records, no breaks, no owners row. -/
def stEmpty : BotState := ⟨fun _ => none, fun _ => none, ⟨none⟩⟩

/-- C3: an `eat` break started at 00:45 (inside the 00:30–01:00 window)
and ended at 01:20 records 0 late minutes and emits no reply, although 20
whole minutes elapsed past the window's 01:00 end boundary: the deadline
dispatch tests `started_at.hour == 17` and `== 1`, so an hour-0 start in
the second window matches no branch. -/
theorem c3_eat_window2_lateness_dropped :
    stEat.user_breaks 1 = some ⟨BreakType.eat, ⟨0, 2700000000⟩⟩ ∧
    (back_from_break ⟨0, 4800000000⟩ uA stEat).state.user_data 1 =
      some { initUser "W" with eat_count := 1, eat_late := 0 } ∧
    (back_from_break ⟨0, 4800000000⟩ uA stEat).reply = none ∧
    ⌊dtSub (⟨0, 4800000000⟩ : DateTime) (⟨0, 3600000000⟩ : DateTime) / 60⌋ =
      (20 : ℤ) := by
  refine ⟨by decide, by decide, by decide, ?_⟩
  norm_num [dtSub, DateTime.abs]

/-- C4: a check-out whose time of day lies outside both allowed windows
(21:00–23:59:59 and 03:00–06:00) gets the fixed refusal reply and leaves
the whole state — registry, break tracker and owners row — untouched, and
invokes no owner-status call. -/
theorem c4_checkout_outside_window
    (st : BotState) (u : TgUser) (now : DateTime) (fault : DbFault)
    (h : ¬ ((hms 21 0 0 ≤ now.tod ∧ now.tod ≤ hms 23 59 59) ∨
            (hms 3 0 0 ≤ now.tod ∧ now.tod ≤ hms 6 0 0))) :
    check_out now fault u st =
      ⟨st, some "You are not allowed to check out at this time.", []⟩ := by
  simp only [check_out, if_neg h]

/-- Witness for C4: a check-out attempt at 12:00:00 is refused and is a
complete no-op. -/
theorem c4_checkout_outside_window_witness :
    ¬ ((hms 21 0 0 ≤ (43200000000 : ℤ) ∧ (43200000000 : ℤ) ≤ hms 23 59 59) ∨
       (hms 3 0 0 ≤ (43200000000 : ℤ) ∧ (43200000000 : ℤ) ≤ hms 6 0 0)) ∧
    check_out ⟨0, 43200000000⟩ DbFault.ok uA stWC =
      ⟨stWC, some "You are not allowed to check out at this time.", []⟩ :=
  ⟨by decide, c4_checkout_outside_window stWC uA ⟨0, 43200000000⟩ DbFault.ok
    (by decide)⟩

/-- C9: a check-out for an identity with no record in `user_data` never
mutates the registry — no record is fabricated. -/
theorem c9_checkout_unknown_identity
    (st : BotState) (u : TgUser) (now : DateTime) (fault : DbFault)
    (h : st.user_data u.id = none) :
    (check_out now fault u st).state.user_data = st.user_data := by
  by_cases hv : (hms 21 0 0 ≤ now.tod ∧ now.tod ≤ hms 23 59 59) ∨
      (hms 3 0 0 ≤ now.tod ∧ now.tod ≤ hms 6 0 0)
  · simp [check_out, if_pos hv, h]
  · simp [check_out, if_neg hv]

/-- Witness for C9: a check-out at 21:30:00 (inside an allowed window) for
unknown id 1 leaves the empty registry empty. -/
theorem c9_checkout_unknown_identity_witness :
    stEmpty.user_data 1 = none ∧
    (check_out ⟨0, 77400000000⟩ DbFault.ok uA stEmpty).state.user_data =
      stEmpty.user_data :=
  ⟨rfl, c9_checkout_unknown_identity stEmpty uA ⟨0, 77400000000⟩ DbFault.ok rfl⟩

/-- C10: a check-out inside an allowed window by a user with a truthy
username invokes the owner-status close for that handle even when the
identity has no record: the kv effect is exactly that of
`_set_owner_status_in_db(handle, True)`. -/
theorem c10_checkout_owner_close_without_record
    (st : BotState) (u : TgUser) (now : DateTime) (fault : DbFault)
    (h : String)
    (hv : (hms 21 0 0 ≤ now.tod ∧ now.tod ≤ hms 23 59 59) ∨
          (hms 3 0 0 ≤ now.tod ∧ now.tod ≤ hms 6 0 0))
    (hu : u.username = some h) (hne : h ≠ "")
    (hr : st.user_data u.id = none) :
    (check_out now fault u st).ownerCalls = [(h, true)] ∧
    (check_out now fault u st).state.kv =
      (_set_owner_status_in_db h true fault st.kv).1 := by
  constructor <;> simp [check_out, if_pos hv, hu, hne]

/-- Witness for C10: a check-out at 21:30:00 with handle "alice" and no
record calls the owner close for "alice". -/
theorem c10_checkout_owner_close_without_record_witness :
    stEmpty.user_data 1 = none ∧ uA.username = some "alice" ∧
    (check_out ⟨0, 77400000000⟩ DbFault.ok uA stEmpty).ownerCalls =
      [("alice", true)] :=
  ⟨rfl, rfl,
    (c10_checkout_owner_close_without_record stEmpty uA ⟨0, 77400000000⟩
      DbFault.ok "alice" (by decide) rfl (by decide) rfl).1⟩

lemma stopAllPass_eq_map (data : List OwnerGroup) :
    stopAllPass data = data.map fun g => { g with disabled := true } := by
  unfold stopAllPass
  have hf : (fun g : OwnerGroup => if g.disabled then g
        else { g with disabled := true }) =
      fun g => { g with disabled := true } := by
    funext g
    cases g with
    | mk o d du => cases d <;> rfl
  rw [hf]

lemma stopAllChanged_map_false (data : List OwnerGroup) :
    stopAllChanged (data.map fun g => { g with disabled := true }) = false := by
  simp [stopAllChanged, List.any_map, Function.comp]

lemma map_setTrue_of_unchanged (data : List OwnerGroup)
    (h : stopAllChanged data = false) :
    (data.map fun g => { g with disabled := true }) = data := by
  induction data with
  | nil => rfl
  | cons g rest ih =>
    simp only [stopAllChanged, List.any_cons, Bool.or_eq_false_iff] at h
    have hg : g.disabled = true := by
      rcases h with ⟨h1, -⟩
      simpa using h1
    have hrest := ih (by simpa [stopAllChanged] using h.2)
    simp only [List.map_cons, hrest]
    cases g with
    | mk o d du =>
      cases d
      · simp at hg
      · rfl

/-- C5: `_stop_all_owners_in_db` run twice in succession: the second run
sends no `owners_changed` notification and leaves the stored owners
payload exactly equal to its value after the first run; and each run sets
`disabled = true` on every stored entry. -/
theorem c5_stop_all_owners_idempotent (kv : KvState) :
    ((_stop_all_owners_in_db DbFault.ok
        (_stop_all_owners_in_db DbFault.ok kv).1).2 = false ∧
     (_stop_all_owners_in_db DbFault.ok
        (_stop_all_owners_in_db DbFault.ok kv).1).1 =
       (_stop_all_owners_in_db DbFault.ok kv).1) ∧
    (∀ data, kv.owners = some data →
      (_stop_all_owners_in_db DbFault.ok kv).1.owners =
        some (data.map fun g => { g with disabled := true })) := by
  constructor
  · cases hk : kv.owners with
    | none =>
      have h1 : _stop_all_owners_in_db DbFault.ok kv = (kv, false) := by
        simp [_stop_all_owners_in_db, stopAllBody, hk]
      rw [h1]
      simp [_stop_all_owners_in_db, stopAllBody, hk]
    | some data =>
      by_cases hc : stopAllChanged data = true
      · have h1 : _stop_all_owners_in_db DbFault.ok kv =
            (⟨some (stopAllPass data)⟩, true) := by
          simp [_stop_all_owners_in_db, stopAllBody, hk, hc]
        rw [h1]
        have h2 : stopAllChanged (stopAllPass data) = false := by
          rw [stopAllPass_eq_map]
          exact stopAllChanged_map_false data
        simp [_stop_all_owners_in_db, stopAllBody, h2]
      · have h1 : _stop_all_owners_in_db DbFault.ok kv = (kv, false) := by
          simp [_stop_all_owners_in_db, stopAllBody, hk, hc]
        rw [h1]
        simp [_stop_all_owners_in_db, stopAllBody, hk, hc]
  · intro data hk
    by_cases hc : stopAllChanged data = true
    · simp [_stop_all_owners_in_db, stopAllBody, hk, hc, stopAllPass_eq_map]
    · have hu : (data.map fun g => { g with disabled := true }) = data :=
        map_setTrue_of_unchanged data (by simpa using hc)
      simp [_stop_all_owners_in_db, stopAllBody, hk, hc, hu]

/-- An owners payload with one open and one closed entry. -/
def kv0 : KvState :=
  ⟨some [⟨"foo", false, none⟩, ⟨"bar", true, some "x"⟩]⟩

/-- Witness for C5: on `kv0` the first run closes "foo", and the second
run notifies nothing and changes nothing. -/
theorem c5_stop_all_owners_idempotent_witness :
    kv0.owners = some [⟨"foo", false, none⟩, ⟨"bar", true, some "x"⟩] ∧
    (_stop_all_owners_in_db DbFault.ok kv0).1.owners =
      some [⟨"foo", true, none⟩, ⟨"bar", true, some "x"⟩] ∧
    (_stop_all_owners_in_db DbFault.ok
        (_stop_all_owners_in_db DbFault.ok kv0).1).2 = false ∧
    (_stop_all_owners_in_db DbFault.ok
        (_stop_all_owners_in_db DbFault.ok kv0).1).1 =
      (_stop_all_owners_in_db DbFault.ok kv0).1 := by
  have h := c5_stop_all_owners_idempotent kv0
  refine ⟨rfl, ?_, h.1.1, h.1.2⟩
  exact (h.2 [⟨"foo", false, none⟩, ⟨"bar", true, some "x"⟩] rfl).trans
    (by decide)

lemma map_if_eq_self {α : Type} (p : α → Prop) [DecidablePred p] (u : α → α)
    (l : List α) (h : ∀ x ∈ l, ¬ p x) :
    (l.map fun x => if p x then u x else x) = l := by
  induction l with
  | nil => rfl
  | cons a t ih =>
    simp only [List.map_cons]
    rw [if_neg (h a (List.mem_cons_self a t)),
      ih fun x hx => h x (List.mem_cons_of_mem a hx)]

lemma setOwnerLoop_snd (n : String) (c : Bool) (data : List OwnerGroup) :
    (setOwnerLoop n c data).2 =
      data.any fun g => decide (_norm_owner_name g.owner = n) := by
  induction data with
  | nil => rfl
  | cons g t ih =>
    by_cases hg : _norm_owner_name g.owner = n
    · simp [setOwnerLoop, hg]
    · simp [setOwnerLoop, hg, ih]

lemma setOwnerLoop_fst_eq_map (n : String) (c : Bool)
    (data : List OwnerGroup)
    (h : data.countP (fun g => decide (_norm_owner_name g.owner = n)) ≤ 1) :
    (setOwnerLoop n c data).1 = data.map fun g =>
      if _norm_owner_name g.owner = n then
        { g with disabled := c,
                 disabled_until := if c then g.disabled_until else none }
      else g := by
  induction data with
  | nil => rfl
  | cons g t ih =>
    by_cases hg : _norm_owner_name g.owner = n
    · simp only [setOwnerLoop, if_pos hg, List.map_cons]
      have hzero :
          t.countP (fun g => decide (_norm_owner_name g.owner = n)) = 0 := by
        rw [List.countP_cons] at h
        simp only [hg, decide_True, if_true] at h
        omega
      have hnm : ∀ x ∈ t, ¬ _norm_owner_name x.owner = n := by
        intro x hx
        simpa using List.countP_eq_zero.mp hzero x hx
      rw [map_if_eq_self _ _ t hnm]
    · simp only [setOwnerLoop, if_neg hg, List.map_cons]
      have ht : t.countP (fun g => decide (_norm_owner_name g.owner = n)) ≤ 1 := by
        rw [List.countP_cons] at h
        omega
      rw [ih ht]

/-- C6: with the `owners` row holding `data` in which at most one entry's
normalized handle matches the normalized input handle,
`_set_owner_status_in_db(handle, closed)` rewrites the payload by updating
exactly the matching entries — `disabled := closed` and `disabled_until`
removed when `closed = false` — leaving every other entry unchanged; when
no entry matches, the store is returned untouched and nothing is inserted.
Moreover `"@Foo"` normalizes equal to a stored `"foo"`. -/
theorem c6_set_owner_status_update
    (handle : String) (closed : Bool) (kv : KvState)
    (data : List OwnerGroup) (hk : kv.owners = some data)
    (hn : _norm_owner_name handle ≠ "")
    (huniq : data.countP
      (fun g => decide (_norm_owner_name g.owner = _norm_owner_name handle))
      ≤ 1) :
    (_set_owner_status_in_db handle closed DbFault.ok kv).1.owners =
      some (data.map fun g =>
        if _norm_owner_name g.owner = _norm_owner_name handle then
          { g with disabled := closed,
                   disabled_until := if closed then g.disabled_until else none }
        else g) ∧
    ((∀ g ∈ data, ¬ _norm_owner_name g.owner = _norm_owner_name handle) →
      (_set_owner_status_in_db handle closed DbFault.ok kv).1 = kv) ∧
    _norm_owner_name "@Foo" = _norm_owner_name "foo" := by
  have hne : handle ≠ "" := by
    intro he
    exact hn (by rw [he]; decide)
  have hbody : _set_owner_status_in_db handle closed DbFault.ok kv =
      if (setOwnerLoop (_norm_owner_name handle) closed data).2 then
        (⟨some (setOwnerLoop (_norm_owner_name handle) closed data).1⟩, true)
      else (kv, false) := by
    cases hl : (setOwnerLoop (_norm_owner_name handle) closed data).2 <;>
      simp [_set_owner_status_in_db, setOwnerBody, hne, hn, hk, hl]
  refine ⟨?_, ?_, by decide⟩
  · by_cases hfound : (setOwnerLoop (_norm_owner_name handle) closed data).2
    · rw [hbody, if_pos hfound]
      exact congrArg some
        (setOwnerLoop_fst_eq_map (_norm_owner_name handle) closed data huniq)
    · rw [hbody, if_neg hfound, hk]
      have hnm : ∀ g ∈ data,
          ¬ _norm_owner_name g.owner = _norm_owner_name handle := by
        rw [setOwnerLoop_snd] at hfound
        intro g hg hgn
        exact hfound (by
          simp only [List.any_eq_true]
          exact ⟨g, hg, by simp [hgn]⟩)
      rw [map_if_eq_self _ _ data hnm]
  · intro hnm
    have hf : (setOwnerLoop (_norm_owner_name handle) closed data).2 = false := by
      rw [setOwnerLoop_snd]
      simp only [List.any_eq_false]
      intro g hg
      simpa using hnm g hg
    rw [hbody, if_neg (by simp [hf])]

/-- An owners payload for the C6 witness: a closed "foo" carrying a
`disabled_until` marker, plus an unrelated "bar". -/
def kvFoo : KvState :=
  ⟨some [⟨"foo", true, some "x"⟩, ⟨"bar", true, none⟩]⟩

/-- Witness for C6: `set_owner_status("@Foo", closed := false)` matches the
stored `"foo"`, re-opens it and clears `disabled_until`, and leaves "bar"
alone. -/
theorem c6_set_owner_status_update_witness :
    kvFoo.owners = some [⟨"foo", true, some "x"⟩, ⟨"bar", true, none⟩] ∧
    _norm_owner_name "@Foo" ≠ "" ∧
    (_set_owner_status_in_db "@Foo" false DbFault.ok kvFoo).1.owners =
      some [⟨"foo", false, none⟩, ⟨"bar", true, none⟩] := by
  have h := c6_set_owner_status_update "@Foo" false kvFoo
    [⟨"foo", true, some "x"⟩, ⟨"bar", true, none⟩] rfl (by decide) (by decide)
  exact ⟨rfl, by decide, h.1.trans (by decide)⟩

/-- C7: a check-in whose time of day satisfies 15:05 < t < 21:00 emits a
reply reporting late minutes equal to the whole minutes elapsed since the
15:00 boundary. -/
theorem c7_checkin_late_window
    (st : BotState) (u : TgUser) (fault : DbFault) (now : DateTime)
    (h1 : hms 15 5 0 < now.tod) (h2 : now.tod < hms 21 0 0) :
    (check_in now fault u st).reply =
      some ("You are late " ++
        toString (⌊((now.tod - hms 15 0 0 : ℤ) : ℚ) / 60000000⌋) ++
        " minutes.") := by
  have hfirst : ¬ (hms 13 0 0 ≤ now.tod ∧ now.tod < hms 15 0 0) := by
    simp only [hms] at h1 ⊢
    omega
  have hval : pyInt (dtSub now (now.replaceHM 15 0) / 60) =
      ⌊((now.tod - hms 15 0 0 : ℤ) : ℚ) / 60000000⌋ := by
    have hpos : (0 : ℚ) ≤ dtSub now (now.replaceHM 15 0) / 60 := by
      have hgt : (0 : ℤ) ≤ now.abs - (now.replaceHM 15 0).abs := by
        simp only [DateTime.abs, DateTime.replaceHM, hms] at h1 ⊢
        omega
      have : (0 : ℚ) ≤ ((now.abs - (now.replaceHM 15 0).abs : ℤ) : ℚ) := by
        exact_mod_cast hgt
      unfold dtSub
      positivity
    rw [pyInt_of_nonneg _ hpos]
    congr 1
    simp only [dtSub, DateTime.abs, DateTime.replaceHM, hms]
    push_cast
    ring
  simp only [check_in, if_neg hfirst, if_pos (And.intro h1 h2), hval]

/-- Witness for C7: a check-in at 15:10:00 emits "You are late 10
minutes.". -/
theorem c7_checkin_late_window_witness :
    hms 15 5 0 < (54600000000 : ℤ) ∧ (54600000000 : ℤ) < hms 21 0 0 ∧
    (check_in ⟨0, 54600000000⟩ DbFault.ok uA stWC).reply =
      some "You are late 10 minutes." := by
  have h := c7_checkin_late_window stWC uA DbFault.ok ⟨0, 54600000000⟩
    (by decide) (by decide)
  refine ⟨by decide, by decide, h.trans ?_⟩
  have hfl : ⌊(((⟨0, 54600000000⟩ : DateTime).tod - hms 15 0 0 : ℤ) : ℚ) /
      60000000⌋ = (10 : ℤ) := by
    norm_num [hms]
  rw [hfl]
  rfl

/-- C8: every exception raised inside the synchronizer bodies — connection
or transaction failure, malformed stored JSON — is caught: the caught call
returns normally with the store untouched and no notification; and the
worker-facing check-in/check-out effects (registry, break tracker, reply)
are identical under every database fault, so a synchronization failure
never propagates into or aborts the worker-facing flow. -/
theorem c8_sync_failures_contained
    (name : String) (stopped : Bool) (fault : DbFault) (kv : KvState) :
    (∀ e, setOwnerBody (_norm_owner_name name) stopped fault kv =
        Except.error e →
      _set_owner_status_in_db name stopped fault kv = (kv, false)) ∧
    (∀ e, stopAllBody fault kv = Except.error e →
      _stop_all_owners_in_db fault kv = (kv, false)) ∧
    (∀ (st : BotState) (u : TgUser) (now : DateTime) (fault2 : DbFault),
      (check_out now fault u st).state.user_data =
        (check_out now fault2 u st).state.user_data ∧
      (check_out now fault u st).state.user_breaks =
        (check_out now fault2 u st).state.user_breaks ∧
      (check_out now fault u st).reply = (check_out now fault2 u st).reply ∧
      (check_in now fault u st).state.user_data =
        (check_in now fault2 u st).state.user_data ∧
      (check_in now fault u st).reply = (check_in now fault2 u st).reply) := by
  refine ⟨?_, ?_, ?_⟩
  · intro e he
    by_cases h1 : name = ""
    · simp [_set_owner_status_in_db, h1]
    · by_cases h2 : _norm_owner_name name = ""
      · simp [_set_owner_status_in_db, h1, h2]
      · simp [_set_owner_status_in_db, h1, h2, he]
  · intro e he
    simp [_stop_all_owners_in_db, he]
  · intro st u now fault2
    by_cases hv : (hms 21 0 0 ≤ now.tod ∧ now.tod ≤ hms 23 59 59) ∨
        (hms 3 0 0 ≤ now.tod ∧ now.tod ≤ hms 6 0 0)
    · refine ⟨?_, ?_, ?_, rfl, rfl⟩ <;> simp only [check_out, if_pos hv]
    · refine ⟨?_, ?_, ?_, rfl, rfl⟩ <;> simp only [check_out, if_neg hv]

/-- Witness for C8: a connection fault and a malformed payload are both
caught — the store survives untouched — and a check-out reply is the same
under a connection fault as under a healthy store. -/
theorem c8_sync_failures_contained_witness :
    setOwnerBody (_norm_owner_name "alice") true DbFault.conn kv0 =
      Except.error PyExc.connError ∧
    _set_owner_status_in_db "alice" true DbFault.conn kv0 = (kv0, false) ∧
    stopAllBody DbFault.malformed kv0 = Except.error PyExc.jsonError ∧
    _stop_all_owners_in_db DbFault.malformed kv0 = (kv0, false) ∧
    (check_out ⟨0, 77400000000⟩ DbFault.conn uA stEmpty).reply =
      (check_out ⟨0, 77400000000⟩ DbFault.ok uA stEmpty).reply := by
  have h := c8_sync_failures_contained "alice" true DbFault.conn kv0
  have h2 := c8_sync_failures_contained "alice" true DbFault.malformed kv0
  exact ⟨rfl, h.1 PyExc.connError rfl, rfl, h2.2.1 PyExc.jsonError rfl,
    (h.2.2 stEmpty uA ⟨0, 77400000000⟩ DbFault.ok).2.2.1⟩
